import Mathlib

/-!
Shallow embedding of the core decision logic of the crypto pump detector
(`script.js` / the unnamed companion source, plus `enhanced-config.js`).

JavaScript numbers are modelled as rationals (`ℚ`); the categorical
signals the code stores and compares as string literals are modelled as
`String`, so every comparison in the embedding mirrors a `===` test in
the source.  Functions absent from the provided sources but called by
them are modelled from the spec and carry a doc comment saying so.
-/

namespace PumpDetector

/-! ## Configuration (`enhanced-config.js`) -/

namespace CONFIG

namespace MARKET_REGIME

def BULL_THRESHOLD : ℚ := 65/100

def BEAR_THRESHOLD : ℚ := 35/100

def HIGH_VOLATILITY_THRESHOLD : ℚ := 5/100

def LOW_VOLATILITY_THRESHOLD : ℚ := 2/100

end MARKET_REGIME

namespace SCORING

namespace BULL_MARKET

def RSI_POSITIVE : ℚ := 20

def MACD_POSITIVE : ℚ := 20

def HIGH_LIQUIDITY : ℚ := 25

def BUYING_POWER : ℚ := 25

def MA_CROSSOVER : ℚ := 25

def MOMENTUM : ℚ := 15

def VOLUME_BREAKOUT : ℚ := 20

end BULL_MARKET

namespace BEAR_MARKET

def RSI_OVERSOLD : ℚ := 25

def SUPPORT_BOUNCE : ℚ := 30

def VOLUME_SPIKE : ℚ := 20

def DIVERGENCE : ℚ := 25

def DEFENSIVE_SIGNALS : ℚ := 20

end BEAR_MARKET

namespace SIDEWAYS_MARKET

def RANGE_TRADING : ℚ := 25

def OSCILLATOR_SIGNALS : ℚ := 20

def SUPPORT_RESISTANCE : ℚ := 25

def MEAN_REVERSION : ℚ := 20

def BREAKOUT_POTENTIAL : ℚ := 15

end SIDEWAYS_MARKET

namespace VOLATILE_MARKET

def VOLATILITY_BREAKOUT : ℚ := 30

def MOMENTUM_SURGE : ℚ := 25

def VOLUME_CONFIRMATION : ℚ := 20

def TREND_STRENGTH : ℚ := 20

def RISK_ADJUSTED : ℚ := -10

end VOLATILE_MARKET

end SCORING

namespace RISK_MANAGEMENT

namespace BULL_MARKET

def MAX_POSITION_SIZE : ℚ := 5/100

def STOP_LOSS_PERCENTAGE : ℚ := 8/100

end BULL_MARKET

namespace BEAR_MARKET

def MAX_POSITION_SIZE : ℚ := 2/100

def STOP_LOSS_PERCENTAGE : ℚ := 5/100

end BEAR_MARKET

namespace SIDEWAYS_MARKET

def MAX_POSITION_SIZE : ℚ := 3/100

def STOP_LOSS_PERCENTAGE : ℚ := 6/100

end SIDEWAYS_MARKET

namespace VOLATILE_MARKET

def MAX_POSITION_SIZE : ℚ := 15/1000

def STOP_LOSS_PERCENTAGE : ℚ := 4/100

end VOLATILE_MARKET

end RISK_MANAGEMENT

end CONFIG

/-! ## Market snapshot data model

The records below carry the fields that `determineMarketRegime` and the
downstream engines read.  Fields produced by helper functions that are
absent from the provided sources (volume distribution, spike list,
concentration, …) are display-only and are not part of the embedding. -/

/-- Result record of `analyzeTrendDirection`. -/
structure TrendAnalysis where
  bullishRatio : ℚ
  bearishRatio : ℚ
  neutralRatio : ℚ
  avgPositiveChange : ℚ
  avgNegativeChange : ℚ
  trendStrength : ℚ
  direction : String
deriving DecidableEq

/-- Result record of `analyzeVolatility` (`regime` is the three-way
volatility classification "high"/"normal"/"low", `trend` the volatility
trend label). -/
structure VolatilityAnalysis where
  avgVolatility : ℚ
  highVolRatioField : ℚ
  btcVolatility : ℚ
  regime : String
  trend : String
deriving DecidableEq

/-- Result record of `analyzeVolumeProfile` (scalar fields only). -/
structure VolumeAnalysis where
  avgVolume : ℚ
  trend : String
deriving DecidableEq

/-- Result record of `analyzeMarketStrength`. -/
structure StrengthAnalysis where
  avgRSI : ℚ
  bullishMACD : ℚ
  overboughtShare : ℚ
  oversoldShare : ℚ
  strength : ℚ
deriving DecidableEq

/-- The aggregated market snapshot handed to `determineMarketRegime`
(the `correlation` and `timestamp` components are never read by the
classifier and are omitted). -/
structure MarketAnalysis where
  trend : TrendAnalysis
  volatility : VolatilityAnalysis
  volume : VolumeAnalysis
  strength : StrengthAnalysis
deriving DecidableEq

/-! ## Regime classifier (`determineMarketRegime`) -/

/-- Source `determineMarketRegime(analysis)`: the fixed-priority rule chain of
the source, first match wins, `"neutral"` as the fallback. -/
def determineMarketRegime (analysis : MarketAnalysis) : String :=
  if analysis.trend.bullishRatio > CONFIG.MARKET_REGIME.BULL_THRESHOLD ∧
      analysis.strength.strength > 6/10 ∧
      analysis.volume.trend = "increasing" then
    if analysis.volatility.regime = "high" then "bull_volatile" else "bull_stable"
  else if analysis.trend.bearishRatio > 1 - CONFIG.MARKET_REGIME.BEAR_THRESHOLD ∧
      analysis.strength.strength < 4/10 then
    if analysis.volatility.regime = "high" then "bear_volatile" else "bear_stable"
  else if analysis.volatility.regime = "high" ∧ analysis.trend.trendStrength < 2/10 then
    "volatile_sideways"
  else if analysis.trend.trendStrength < 15/100 ∧ analysis.volatility.regime = "low" then
    "sideways_stable"
  else
    "neutral"

/-! ## Per-asset analysis data model -/

/-- RSI indicator result: numeric value, threshold signal
("overbought"/"oversold"/"neutral") and direction trend
("bullish"/"bearish"). -/
structure RSIResult where
  value : ℚ
  signal : String
  trend : String
deriving DecidableEq

/-- MACD indicator result; only its `signal` label is read downstream. -/
structure MACDResult where
  signal : String
deriving DecidableEq

/-- Liquidity-flow record; `percentage` is stored as a string in the
source and always read through `parseFloat`, so it is modelled as the
parsed number. -/
structure LiquidityFlow where
  trend : String
  percentage : ℚ
deriving DecidableEq

/-- Buying-power record; only its `strength` label is read. -/
structure BuyingPower where
  strength : String
deriving DecidableEq

/-- Moving-averages record; only its `signal` label is read. -/
structure MovingAverages where
  signal : String
deriving DecidableEq

/-- Money-flow-index record. -/
structure MoneyFlowIndex where
  flow : String
  signal : String
deriving DecidableEq

/-- Accumulation/distribution record; only its `trend` label is read. -/
structure ADResult where
  trend : String
deriving DecidableEq

/-- Support/resistance levels plus the proximity flags that
`isNearSupportResistance` reads. -/
structure SupportResistance where
  support1 : ℚ
  support2 : ℚ
  resistance1 : ℚ
  resistance2 : ℚ
  nearSupport : Bool
  nearResistance : Bool
deriving DecidableEq

/-- The per-asset analysis bundle consumed by the scorers, the strategy
builders and `calculateConfidence`. -/
structure AssetAnalysis where
  rsi : RSIResult
  macd : MACDResult
  liquidityFlow : LiquidityFlow
  buyingPower : BuyingPower
  movingAverages : MovingAverages
  moneyFlowIndex : MoneyFlowIndex
  accumulationDistribution : ADResult
  supportResistance : SupportResistance
  priceChange24h : ℚ
deriving DecidableEq

/-- A coin entry as consumed by `adaptStrategyToMarket`: the fields the
core reads (`symbol`, `price`, `analysis`) plus `volume` standing for
the remaining ticker payload carried along by the object spread. -/
structure Coin where
  symbol : String
  price : ℚ
  volume : ℚ
  analysis : AssetAnalysis
deriving DecidableEq

/-! ## Analysis helper predicates (source: `hasMomentum` … `hasDefensiveSignals`) -/

/-- Source `hasMomentum(analysis)`. -/
def hasMomentum (analysis : AssetAnalysis) : Prop :=
  analysis.rsi.value > 50 ∧ analysis.macd.signal = "bullish" ∧
    analysis.liquidityFlow.trend = "increasing"

instance (analysis : AssetAnalysis) : Decidable (hasMomentum analysis) := by
  unfold hasMomentum; infer_instance

/-- Source `hasVolumeBreakout(analysis)`. -/
def hasVolumeBreakout (analysis : AssetAnalysis) : Prop :=
  analysis.liquidityFlow.percentage > 50

instance (analysis : AssetAnalysis) : Decidable (hasVolumeBreakout analysis) := by
  unfold hasVolumeBreakout; infer_instance

/-- Source `hasSupportBounce(analysis)`. -/
def hasSupportBounce (analysis : AssetAnalysis) : Prop :=
  analysis.rsi.signal = "oversold" ∧
    analysis.accumulationDistribution.trend = "accumulation"

instance (analysis : AssetAnalysis) : Decidable (hasSupportBounce analysis) := by
  unfold hasSupportBounce; infer_instance

/-- Source `hasVolumeSpike(analysis)`. -/
def hasVolumeSpike (analysis : AssetAnalysis) : Prop :=
  analysis.liquidityFlow.percentage > 100

instance (analysis : AssetAnalysis) : Decidable (hasVolumeSpike analysis) := by
  unfold hasVolumeSpike; infer_instance

/-- Source `hasBullishDivergence(analysis)`. -/
def hasBullishDivergence (analysis : AssetAnalysis) : Prop :=
  analysis.rsi.trend = "bullish" ∧ analysis.moneyFlowIndex.flow = "positive"

instance (analysis : AssetAnalysis) : Decidable (hasBullishDivergence analysis) := by
  unfold hasBullishDivergence; infer_instance

/-- Source `hasDefensiveSignals(analysis)`. -/
def hasDefensiveSignals (analysis : AssetAnalysis) : Prop :=
  analysis.rsi.value < 40 ∧ analysis.moneyFlowIndex.signal ≠ "overbought"

instance (analysis : AssetAnalysis) : Decidable (hasDefensiveSignals analysis) := by
  unfold hasDefensiveSignals; infer_instance

/-! ## Adaptive scorers -/

/-- Source `calculateBullMarketScore(analysis)`: additive gated contributions
from `CONFIG.SCORING.BULL_MARKET`, capped at 100 by `Math.min`. -/
def calculateBullMarketScore (analysis : AssetAnalysis) : ℚ :=
  let score : ℚ :=
    (if analysis.rsi.trend = "bullish" ∧ analysis.rsi.signal ≠ "overbought" then
      CONFIG.SCORING.BULL_MARKET.RSI_POSITIVE else 0) +
    (if analysis.macd.signal = "bullish" then
      CONFIG.SCORING.BULL_MARKET.MACD_POSITIVE else 0) +
    (if analysis.liquidityFlow.trend = "increasing" then
      CONFIG.SCORING.BULL_MARKET.HIGH_LIQUIDITY else 0) +
    (if analysis.buyingPower.strength = "high" then
      CONFIG.SCORING.BULL_MARKET.BUYING_POWER else 0) +
    (if analysis.movingAverages.signal = "buy" then
      CONFIG.SCORING.BULL_MARKET.MA_CROSSOVER else 0) +
    (if hasMomentum analysis then
      CONFIG.SCORING.BULL_MARKET.MOMENTUM else 0) +
    (if hasVolumeBreakout analysis then
      CONFIG.SCORING.BULL_MARKET.VOLUME_BREAKOUT else 0)
  min score 100

/-- Source `calculateBearMarketScore(analysis)`: additive gated contributions
from `CONFIG.SCORING.BEAR_MARKET`, capped at 100 by `Math.min`. -/
def calculateBearMarketScore (analysis : AssetAnalysis) : ℚ :=
  let score : ℚ :=
    (if analysis.rsi.signal = "oversold" then
      CONFIG.SCORING.BEAR_MARKET.RSI_OVERSOLD else 0) +
    (if hasSupportBounce analysis then
      CONFIG.SCORING.BEAR_MARKET.SUPPORT_BOUNCE else 0) +
    (if hasVolumeSpike analysis then
      CONFIG.SCORING.BEAR_MARKET.VOLUME_SPIKE else 0) +
    (if hasBullishDivergence analysis then
      CONFIG.SCORING.BEAR_MARKET.DIVERGENCE else 0) +
    (if hasDefensiveSignals analysis then
      CONFIG.SCORING.BEAR_MARKET.DEFENSIVE_SIGNALS else 0)
  min score 100

/-- Clamp of a raw additive score to the documented `[0,100]` band. -/
def clampScore (x : ℚ) : ℚ := min 100 (max 0 x)

/-- Modelled from the spec: `calculateVolatileBullScore` is called by
`adaptStrategyToMarket` but absent from the provided sources.  Per §4.4
it is an additive sum of gated contributions (here drawn from the
`VOLATILE_MARKET` weight table, including the unconditional
`RISK_ADJUSTED` penalty) with the final score clamped to `[0,100]`. -/
def calculateVolatileBullScore (analysis : AssetAnalysis) : ℚ :=
  clampScore
    ((if hasVolumeBreakout analysis then
        CONFIG.SCORING.VOLATILE_MARKET.VOLATILITY_BREAKOUT else 0) +
     (if hasMomentum analysis then
        CONFIG.SCORING.VOLATILE_MARKET.MOMENTUM_SURGE else 0) +
     (if hasVolumeSpike analysis then
        CONFIG.SCORING.VOLATILE_MARKET.VOLUME_CONFIRMATION else 0) +
     (if analysis.rsi.trend = "bullish" then
        CONFIG.SCORING.VOLATILE_MARKET.TREND_STRENGTH else 0) +
     CONFIG.SCORING.VOLATILE_MARKET.RISK_ADJUSTED)

/-- Modelled from the spec: `calculateVolatileBearScore` is called by
`adaptStrategyToMarket` but absent from the provided sources.  Per §4.4
it is a clamped additive sum of gated contributions. -/
def calculateVolatileBearScore (analysis : AssetAnalysis) : ℚ :=
  clampScore
    ((if analysis.rsi.signal = "oversold" then
        CONFIG.SCORING.BEAR_MARKET.RSI_OVERSOLD else 0) +
     (if hasVolumeSpike analysis then
        CONFIG.SCORING.VOLATILE_MARKET.VOLUME_CONFIRMATION else 0) +
     (if hasBullishDivergence analysis then
        CONFIG.SCORING.BEAR_MARKET.DIVERGENCE else 0) +
     CONFIG.SCORING.VOLATILE_MARKET.RISK_ADJUSTED)

/-- Modelled from the spec: `calculateSidewaysScore` is called by
`adaptStrategyToMarket` but absent from the provided sources.  Per §4.4
(sideways regime bonuses) it is a clamped additive sum of gated
contributions from the `SIDEWAYS_MARKET` weight table. -/
def calculateSidewaysScore (analysis : AssetAnalysis) : ℚ :=
  clampScore
    ((if analysis.supportResistance.nearSupport then
        CONFIG.SCORING.SIDEWAYS_MARKET.RANGE_TRADING else 0) +
     (if analysis.rsi.signal = "neutral" then
        CONFIG.SCORING.SIDEWAYS_MARKET.OSCILLATOR_SIGNALS else 0) +
     (if analysis.supportResistance.nearSupport ∨ analysis.supportResistance.nearResistance then
        CONFIG.SCORING.SIDEWAYS_MARKET.SUPPORT_RESISTANCE else 0) +
     (if analysis.rsi.signal = "oversold" then
        CONFIG.SCORING.SIDEWAYS_MARKET.MEAN_REVERSION else 0) +
     (if hasVolumeBreakout analysis then
        CONFIG.SCORING.SIDEWAYS_MARKET.BREAKOUT_POTENTIAL else 0))

/-- Modelled from the spec: `calculateVolatileSidewaysScore` is called
by `adaptStrategyToMarket` but absent from the provided sources.  Per
§4.4 it is a clamped additive sum of gated contributions. -/
def calculateVolatileSidewaysScore (analysis : AssetAnalysis) : ℚ :=
  clampScore
    ((if analysis.supportResistance.nearSupport then
        CONFIG.SCORING.SIDEWAYS_MARKET.RANGE_TRADING else 0) +
     (if hasVolumeBreakout analysis then
        CONFIG.SCORING.VOLATILE_MARKET.VOLATILITY_BREAKOUT else 0) +
     (if hasVolumeSpike analysis then
        CONFIG.SCORING.VOLATILE_MARKET.VOLUME_CONFIRMATION else 0) +
     CONFIG.SCORING.VOLATILE_MARKET.RISK_ADJUSTED)

/-- Modelled from the spec: the regime-agnostic baseline scorer
`calculateScore` (the `default` branch of `adaptStrategyToMarket`) is
absent from the provided sources.  Per §4.4 unmatched regimes fall back
to a clamped additive sum of gated contributions. -/
def calculateScore (analysis : AssetAnalysis) : ℚ :=
  clampScore
    ((if analysis.rsi.trend = "bullish" then 20 else 0) +
     (if analysis.macd.signal = "bullish" then 20 else 0) +
     (if analysis.liquidityFlow.trend = "increasing" then 25 else 0) +
     (if analysis.buyingPower.strength = "high" then 25 else 0))

/-! ## Confidence (`calculateConfidence`) -/

/-- The slice of the ambient `this.marketMetrics` state that
`calculateConfidence` reads, threaded explicitly: `trend?.bullishRatio`
and `volatility?.regime`, each possibly absent. -/
structure MarketMetricsCtx where
  bullishRatio : Option ℚ
  volatilityRegime : Option String
deriving DecidableEq

/-- Source `this.marketMetrics.trend?.bullishRatio > 0.7`: a comparison against
an absent field is false in the source. -/
def bullishRatioAbove (ctx : MarketMetricsCtx) (q : ℚ) : Prop :=
  match ctx.bullishRatio with
  | some r => r > q
  | none => False

instance (ctx : MarketMetricsCtx) (q : ℚ) : Decidable (bullishRatioAbove ctx q) := by
  unfold bullishRatioAbove
  cases ctx.bullishRatio <;> infer_instance

/-- Source `isNearSupportResistance(analysis)`; the existence check on
`analysis.supportResistance` is always true in the embedding since the
record field is total. -/
def isNearSupportResistance (analysis : AssetAnalysis) : Prop :=
  analysis.supportResistance.nearSupport = true ∨
    analysis.supportResistance.nearResistance = true

instance (analysis : AssetAnalysis) : Decidable (isNearSupportResistance analysis) := by
  unfold isNearSupportResistance; infer_instance

/-- Source `calculateConfidence(analysis, marketType)`: baseline 50, additive
factor adjustments, a `marketType` switch, volatility/overbought
penalties, then `Math.max(0, Math.min(100, confidence))`. -/
def calculateConfidence (analysis : AssetAnalysis) (marketType : String)
    (ctx : MarketMetricsCtx) : ℚ :=
  let c1 : ℚ := if analysis.rsi.signal = "bullish" then 50 + 10 else 50
  let c2 : ℚ := if analysis.macd.signal = "bullish" then c1 + 10 else c1
  let c3 : ℚ := if analysis.liquidityFlow.trend = "increasing" then c2 + 15 else c2
  let c4 : ℚ := if analysis.buyingPower.strength = "high" then c3 + 15 else c3
  let c5 : ℚ :=
    if marketType = "bull" then
      if bullishRatioAbove ctx (7/10) then c4 + 10 else c4
    else if marketType = "bear" then
      if analysis.rsi.signal = "oversold" then c4 + 15 else c4
    else if marketType = "sideways" then
      if isNearSupportResistance analysis then c4 + 10 else c4
    else c4
  let c6 : ℚ := if ctx.volatilityRegime = some "high" then c5 - 10 else c5
  let c7 : ℚ := if analysis.rsi.signal = "overbought" then c6 - 15 else c6
  max 0 (min 100 c7)

/-- Reference variant written from the spec's RSI signal domain: the
same computation as `calculateConfidence` with the
`rsi.signal === 'bullish'` +10 branch removed, used to state that the
branch is unreachable on the documented domain. -/
def calculateConfidenceNoRsiDirBonus (analysis : AssetAnalysis) (marketType : String)
    (ctx : MarketMetricsCtx) : ℚ :=
  let c1 : ℚ := 50
  let c2 : ℚ := if analysis.macd.signal = "bullish" then c1 + 10 else c1
  let c3 : ℚ := if analysis.liquidityFlow.trend = "increasing" then c2 + 15 else c2
  let c4 : ℚ := if analysis.buyingPower.strength = "high" then c3 + 15 else c3
  let c5 : ℚ :=
    if marketType = "bull" then
      if bullishRatioAbove ctx (7/10) then c4 + 10 else c4
    else if marketType = "bear" then
      if analysis.rsi.signal = "oversold" then c4 + 15 else c4
    else if marketType = "sideways" then
      if isNearSupportResistance analysis then c4 + 10 else c4
    else c4
  let c6 : ℚ := if ctx.volatilityRegime = some "high" then c5 - 10 else c5
  let c7 : ℚ := if analysis.rsi.signal = "overbought" then c6 - 15 else c6
  max 0 (min 100 c7)

/-! ## Strategy synthesizer -/

/-- A synthesized trade plan (`StrategyPlan`). -/
structure Strategy where
  type : String
  entryConditions : List String
  entryPrice : ℚ
  stopLoss : ℚ
  targets : List ℚ
  positionSize : ℚ
  timeframe : String
  confidence : ℚ
  notes : String
deriving DecidableEq

/-- Source `getBullMarketStrategy(coin)`. -/
def getBullMarketStrategy (coin : Coin) (ctx : MarketMetricsCtx) : Strategy :=
  { type := "bull_market"
    entryConditions := ["RSI < 70", "MACD > 0", "Price > MA20", "Volume > Average"]
    entryPrice := coin.price * (995/1000)
    stopLoss := coin.price * (92/100)
    targets := [coin.price * (115/100), coin.price * (130/100), coin.price * (150/100)]
    positionSize := CONFIG.RISK_MANAGEMENT.BULL_MARKET.MAX_POSITION_SIZE
    timeframe := "medium_term"
    confidence := calculateConfidence coin.analysis "bull" ctx
    notes := "bull market - growth focus" }

/-- Source `getVolatileBullStrategy(coin)`. -/
def getVolatileBullStrategy (coin : Coin) (ctx : MarketMetricsCtx) : Strategy :=
  { type := "volatile_bull"
    entryConditions := ["Strong momentum", "Volume breakout", "RSI 30-65", "Support bounce"]
    entryPrice := coin.price * (98/100)
    stopLoss := coin.price * (94/100)
    targets := [coin.price * (112/100), coin.price * (125/100), coin.price * (140/100)]
    positionSize := CONFIG.RISK_MANAGEMENT.BULL_MARKET.MAX_POSITION_SIZE * (7/10)
    timeframe := "short_term"
    confidence := calculateConfidence coin.analysis "volatile_bull" ctx
    notes := "volatile bull market - extra caution" }

/-- Source `getBearMarketStrategy(coin)`. -/
def getBearMarketStrategy (coin : Coin) (ctx : MarketMetricsCtx) : Strategy :=
  { type := "bear_market"
    entryConditions := ["RSI < 30 (Oversold)", "Support level bounce",
      "Bullish divergence", "Volume spike on bounce"]
    entryPrice := coin.price * (985/1000)
    stopLoss := coin.price * (95/100)
    targets := [coin.price * (108/100), coin.price * (115/100), coin.price * (122/100)]
    positionSize := CONFIG.RISK_MANAGEMENT.BEAR_MARKET.MAX_POSITION_SIZE
    timeframe := "short_term"
    confidence := calculateConfidence coin.analysis "bear" ctx
    notes := "bear market - trade bounces only" }

/-- Source `getSidewaysStrategy(coin)`: entry and stop anchored to `support1`,
targets anchored below `resistance1`. -/
def getSidewaysStrategy (coin : Coin) (ctx : MarketMetricsCtx) : Strategy :=
  let support := coin.analysis.supportResistance.support1
  let resistance := coin.analysis.supportResistance.resistance1
  { type := "range_trading"
    entryConditions := ["Price near support", "RSI 25-40", "Bounce confirmation",
      "Volume increase"]
    entryPrice := support * (102/100)
    stopLoss := support * (97/100)
    targets := [resistance * (95/100), resistance * (98/100)]
    positionSize := CONFIG.RISK_MANAGEMENT.SIDEWAYS_MARKET.MAX_POSITION_SIZE
    timeframe := "short_term"
    confidence := calculateConfidence coin.analysis "sideways" ctx
    notes := "range trading - buy support, sell resistance" }

/-- Modelled from the spec: `getVolatileBearStrategy` is called by
`adaptStrategyToMarket` but absent from the provided sources.  Per §4.5
a volatile-bear plan takes a deeper entry discount, a tight stop,
conservative ascending targets, and the bear position size scaled by
0.7 for the volatile variant. -/
def getVolatileBearStrategy (coin : Coin) (ctx : MarketMetricsCtx) : Strategy :=
  { type := "volatile_bear"
    entryConditions := ["Deep oversold", "Capitulation volume"]
    entryPrice := coin.price * (97/100)
    stopLoss := coin.price * (94/100)
    targets := [coin.price * (105/100), coin.price * (110/100)]
    positionSize := CONFIG.RISK_MANAGEMENT.BEAR_MARKET.MAX_POSITION_SIZE * (7/10)
    timeframe := "short_term"
    confidence := calculateConfidence coin.analysis "volatile_bear" ctx
    notes := "volatile bear market" }

/-- Modelled from the spec: `getVolatileSidewaysStrategy` is called by
`adaptStrategyToMarket` but absent from the provided sources.  Per §4.5
sideways plans anchor entry above support and targets below resistance,
with the sideways position size scaled by 0.7 for the volatile
variant. -/
def getVolatileSidewaysStrategy (coin : Coin) (ctx : MarketMetricsCtx) : Strategy :=
  let support := coin.analysis.supportResistance.support1
  let resistance := coin.analysis.supportResistance.resistance1
  { type := "volatile_range"
    entryConditions := ["Price near support", "Volatility contraction"]
    entryPrice := support * (101/100)
    stopLoss := support * (98/100)
    targets := [resistance * (96/100)]
    positionSize := CONFIG.RISK_MANAGEMENT.SIDEWAYS_MARKET.MAX_POSITION_SIZE * (7/10)
    timeframe := "short_term"
    confidence := calculateConfidence coin.analysis "volatile_sideways" ctx
    notes := "volatile sideways market" }

/-- Modelled from the spec: `getDefaultStrategy` (the `default` branch
of `adaptStrategyToMarket`) is absent from the provided sources.  A
neutral-regime fallback plan with a small entry discount and ascending
targets. -/
def getDefaultStrategy (coin : Coin) (ctx : MarketMetricsCtx) : Strategy :=
  { type := "default"
    entryConditions := ["Neutral market"]
    entryPrice := coin.price * (99/100)
    stopLoss := coin.price * (95/100)
    targets := [coin.price * (110/100), coin.price * (120/100)]
    positionSize := CONFIG.RISK_MANAGEMENT.SIDEWAYS_MARKET.MAX_POSITION_SIZE
    timeframe := "medium_term"
    confidence := calculateConfidence coin.analysis "neutral" ctx
    notes := "neutral market" }

/-! ## `adaptStrategyToMarket` -/

/-- A coin after adaptation: the spread `{...coin, adaptedScore,
riskLevel, strategy, marketRegime}`. -/
structure AdaptedCoin where
  symbol : String
  price : ℚ
  volume : ℚ
  analysis : AssetAnalysis
  adaptedScore : ℚ
  riskLevel : String
  strategy : Strategy
  marketRegime : String
deriving DecidableEq

/-- The `switch (marketRegime)` of `adaptStrategyToMarket`, computing
the `(adaptedScore, riskLevel, strategy)` triple (the `default` branch
keeps the initial `riskLevel = 'medium'`). -/
def adaptSwitch (coin : Coin) (marketRegime : String)
    (ctx : MarketMetricsCtx) : ℚ × String × Strategy :=
  if marketRegime = "bull_stable" then
    (calculateBullMarketScore coin.analysis, "low", getBullMarketStrategy coin ctx)
  else if marketRegime = "bull_volatile" then
    (calculateVolatileBullScore coin.analysis, "medium", getVolatileBullStrategy coin ctx)
  else if marketRegime = "bear_stable" then
    (calculateBearMarketScore coin.analysis, "high", getBearMarketStrategy coin ctx)
  else if marketRegime = "bear_volatile" then
    (calculateVolatileBearScore coin.analysis, "very_high", getVolatileBearStrategy coin ctx)
  else if marketRegime = "sideways_stable" then
    (calculateSidewaysScore coin.analysis, "medium", getSidewaysStrategy coin ctx)
  else if marketRegime = "volatile_sideways" then
    (calculateVolatileSidewaysScore coin.analysis, "high", getVolatileSidewaysStrategy coin ctx)
  else
    (calculateScore coin.analysis, "medium", getDefaultStrategy coin ctx)

/-- Source `adaptStrategyToMarket(coin, marketRegime)`: the object spread
copies every field of the input coin and adds the four computed
fields. -/
def adaptStrategyToMarket (coin : Coin) (marketRegime : String)
    (ctx : MarketMetricsCtx) : AdaptedCoin :=
  { symbol := coin.symbol
    price := coin.price
    volume := coin.volume
    analysis := coin.analysis
    adaptedScore := (adaptSwitch coin marketRegime ctx).1
    riskLevel := (adaptSwitch coin marketRegime ctx).2.1
    strategy := (adaptSwitch coin marketRegime ctx).2.2
    marketRegime := marketRegime }

/-! ## Regime-change detection (`hasMarketRegimeChanged`) -/

/-- Source `hasMarketRegimeChanged()`, modelled over an explicit persisted
cell: the `localStorage` entry `previousMarketRegime` is the `Option
String` input (absent = `none`), and the result pairs the returned
boolean with the cell's new content.  The source guards on JS
truthiness, so an empty persisted string counts as absent. -/
def hasMarketRegimeChanged (prev : Option String) (current : String) :
    Bool × Option String :=
  match prev with
  | none => (false, some current)
  | some p =>
    if p ≠ "" then
      if p ≠ current then (true, some current) else (false, some p)
    else (false, some current)

/-! ## RSI indicator -/

/-- Modelled from the spec: the Indicator Library's `calculateRSI` is
called on each asset's series but absent from the provided sources.
Per §4.1: needs `period+1` points and returns the neutral fallback
`(50, "neutral")` on shorter series; otherwise a loss/gain partition of
adjacent changes over the lookback window (series most-recent first),
thresholds >70 overbought / <30 oversold, trend >50 bullish else
bearish. -/
def calculateRSI (prices : List ℚ) (period : Nat := 14) : RSIResult :=
  if prices.length < period + 1 then
    { value := 50, signal := "neutral", trend := "neutral" }
  else
    let window := prices.take (period + 1)
    let changes := List.zipWith (fun a b => a - b) window (window.drop 1)
    let gains := (changes.filter (fun c => decide (0 < c))).foldr (· + ·) 0
    let losses := ((changes.filter (fun c => decide (c < 0))).map (fun c => -c)).foldr (· + ·) 0
    let avgGain := gains / (period : ℚ)
    let avgLoss := losses / (period : ℚ)
    let value : ℚ :=
      if avgLoss = 0 then 100 else 100 - 100 / (1 + avgGain / avgLoss)
    { value := value
      signal := if value > 70 then "overbought"
        else if value < 30 then "oversold" else "neutral"
      trend := if value > 50 then "bullish" else "bearish" }

/-! ## Shared invariants and helper lemmas -/

/-- The `StrategyPlan` price invariant of the spec: strictly positive
stop/entry/targets, `stopLoss < entryPrice`, and strictly ascending
targets starting above the entry. -/
def strategyInvariant (s : Strategy) : Prop :=
  0 < s.stopLoss ∧ 0 < s.entryPrice ∧ (∀ t ∈ s.targets, 0 < t) ∧
    s.stopLoss < s.entryPrice ∧ List.Chain (· < ·) s.entryPrice s.targets

/-- The clamp keeps every raw score inside `[0,100]`. -/
theorem clampScore_mem (x : ℚ) : 0 ≤ clampScore x ∧ clampScore x ≤ 100 := by
  unfold clampScore
  constructor
  · exact le_min (by norm_num) (le_max_left 0 x)
  · exact min_le_left 100 (max 0 x)

/-- The bull-market scorer stays inside `[0,100]`: every contribution
is non-negative and the sum is capped at 100. -/
theorem calculateBullMarketScore_mem (analysis : AssetAnalysis) :
    0 ≤ calculateBullMarketScore analysis ∧ calculateBullMarketScore analysis ≤ 100 := by
  unfold calculateBullMarketScore
  refine ⟨le_min ?_ (by norm_num), min_le_right _ 100⟩
  unfold CONFIG.SCORING.BULL_MARKET.RSI_POSITIVE CONFIG.SCORING.BULL_MARKET.MACD_POSITIVE
    CONFIG.SCORING.BULL_MARKET.HIGH_LIQUIDITY CONFIG.SCORING.BULL_MARKET.BUYING_POWER
    CONFIG.SCORING.BULL_MARKET.MA_CROSSOVER CONFIG.SCORING.BULL_MARKET.MOMENTUM
    CONFIG.SCORING.BULL_MARKET.VOLUME_BREAKOUT
  split_ifs <;> norm_num

/-- The bear-market scorer stays inside `[0,100]`. -/
theorem calculateBearMarketScore_mem (analysis : AssetAnalysis) :
    0 ≤ calculateBearMarketScore analysis ∧ calculateBearMarketScore analysis ≤ 100 := by
  unfold calculateBearMarketScore
  refine ⟨le_min ?_ (by norm_num), min_le_right _ 100⟩
  unfold CONFIG.SCORING.BEAR_MARKET.RSI_OVERSOLD CONFIG.SCORING.BEAR_MARKET.SUPPORT_BOUNCE
    CONFIG.SCORING.BEAR_MARKET.VOLUME_SPIKE CONFIG.SCORING.BEAR_MARKET.DIVERGENCE
    CONFIG.SCORING.BEAR_MARKET.DEFENSIVE_SIGNALS
  split_ifs <;> norm_num

/-! ## C1: rule 1 precedes rule 4 in the regime classifier -/

/-- C1: a snapshot satisfying both the bull-stable predicate (bullish
ratio above the bull threshold, strength above 0.6, volume trend
increasing, volatility regime not high) and the sideways-stable
predicate (trend strength below 0.15, volatility regime low) is
classified as a bull variant by `determineMarketRegime`, never as
`sideways_stable`. -/
theorem determineMarketRegime_bull_preempts_sideways (analysis : MarketAnalysis)
    (hb : analysis.trend.bullishRatio > CONFIG.MARKET_REGIME.BULL_THRESHOLD)
    (hs : analysis.strength.strength > 6/10)
    (hv : analysis.volume.trend = "increasing")
    (hnh : analysis.volatility.regime ≠ "high")
    (ht : analysis.trend.trendStrength < 15/100)
    (hl : analysis.volatility.regime = "low") :
    (determineMarketRegime analysis = "bull_stable" ∨
      determineMarketRegime analysis = "bull_volatile") ∧
    determineMarketRegime analysis ≠ "sideways_stable" := by
  unfold determineMarketRegime
  rw [if_pos ⟨hb, hs, hv⟩, if_neg hnh]
  exact ⟨Or.inl rfl, by decide⟩

/-- A concrete snapshot lying in the overlap of the bull-stable and the
sideways-stable predicates (70% bullish, strength 0.7, increasing
volume, low volatility, trend strength 0.1). -/
def bullSidewaysSnapshot : MarketAnalysis :=
  { trend := { bullishRatio := 7/10, bearishRatio := 2/10, neutralRatio := 1/10,
               avgPositiveChange := 3, avgNegativeChange := -1,
               trendStrength := 1/10, direction := "bullish" }
    volatility := { avgVolatility := 1/100, highVolRatioField := 0,
                    btcVolatility := 1/100, regime := "low", trend := "stable" }
    volume := { avgVolume := 1000000, trend := "increasing" }
    strength := { avgRSI := 60, bullishMACD := 7/10, overboughtShare := 1/10,
                  oversoldShare := 1/10, strength := 7/10 } }

/-- Witness for C1 at a concrete snapshot in the overlap of the two
predicates. -/
theorem determineMarketRegime_bull_preempts_sideways_witness :
    (determineMarketRegime bullSidewaysSnapshot = "bull_stable" ∨
      determineMarketRegime bullSidewaysSnapshot = "bull_volatile") ∧
    determineMarketRegime bullSidewaysSnapshot ≠ "sideways_stable" :=
  determineMarketRegime_bull_preempts_sideways bullSidewaysSnapshot
    (by norm_num [bullSidewaysSnapshot, CONFIG.MARKET_REGIME.BULL_THRESHOLD])
    (by norm_num [bullSidewaysSnapshot]) rfl (by decide)
    (by norm_num [bullSidewaysSnapshot]) rfl

/-! ## C7: the 50/50 neutral scenario -/

/-- A concrete snapshot matching the C7 scenario constraints with a
low volatility regime: the fourth classifier rule fires. -/
def fiftyFiftySnapshot : MarketAnalysis :=
  { trend := { bullishRatio := 1/2, bearishRatio := 1/2, neutralRatio := 0,
               avgPositiveChange := 2, avgNegativeChange := -2,
               trendStrength := 0, direction := "bearish" }
    volatility := { avgVolatility := 1/100, highVolRatioField := 0,
                    btcVolatility := 1/100, regime := "low", trend := "stable" }
    volume := { avgVolume := 1000000, trend := "stable" }
    strength := { avgRSI := 50, bullishMACD := 1/2, overboughtShare := 1/10,
                  oversoldShare := 1/10, strength := 1/2 } }

/-- C7 counterexample: a snapshot with an exact 50/50 split, strength
0.5, trend strength 0 and a non-increasing volume trend is NOT always
classified `"neutral"`: with a `"low"` volatility regime the fourth
rule fires and the classifier returns `"sideways_stable"`. -/
theorem determineMarketRegime_fiftyFifty_not_neutral :
    determineMarketRegime fiftyFiftySnapshot = "sideways_stable" ∧
      determineMarketRegime fiftyFiftySnapshot ≠ "neutral" := by
  constructor <;>
    norm_num [determineMarketRegime, fiftyFiftySnapshot,
      CONFIG.MARKET_REGIME.BULL_THRESHOLD, CONFIG.MARKET_REGIME.BEAR_THRESHOLD] <;>
    decide

/-- C7 (amended): under the scenario constraints (50/50 split, strength
0.5, trend strength 0, non-increasing volume) and a `"normal"`
volatility regime, no classifier branch fires and
`determineMarketRegime` returns `"neutral"`. -/
theorem determineMarketRegime_fiftyFifty_neutral (analysis : MarketAnalysis)
    (hb : analysis.trend.bullishRatio = 1/2)
    (hbe : analysis.trend.bearishRatio = 1/2)
    (hts : analysis.trend.trendStrength = 0)
    (hst : analysis.strength.strength = 1/2)
    (hvol : analysis.volume.trend ≠ "increasing")
    (hreg : analysis.volatility.regime = "normal") :
    determineMarketRegime analysis = "neutral" := by
  unfold determineMarketRegime
  rw [if_neg, if_neg, if_neg, if_neg]
  · rintro ⟨-, hlow⟩
    rw [hreg] at hlow
    exact absurd hlow (by decide)
  · rintro ⟨hhigh, -⟩
    rw [hreg] at hhigh
    exact absurd hhigh (by decide)
  · rintro ⟨h, -⟩
    rw [hbe] at h
    norm_num [CONFIG.MARKET_REGIME.BEAR_THRESHOLD] at h
  · rintro ⟨h, -⟩
    rw [hb] at h
    norm_num [CONFIG.MARKET_REGIME.BULL_THRESHOLD] at h

/-- A concrete snapshot matching the C7 scenario constraints with a
normal volatility regime. -/
def fiftyFiftyNormalSnapshot : MarketAnalysis :=
  { fiftyFiftySnapshot with
    volatility := { avgVolatility := 3/100, highVolRatioField := 0,
                    btcVolatility := 3/100, regime := "normal", trend := "stable" } }

/-- Witness for the amended C7 at a concrete snapshot. -/
theorem determineMarketRegime_fiftyFifty_neutral_witness :
    determineMarketRegime fiftyFiftyNormalSnapshot = "neutral" :=
  determineMarketRegime_fiftyFifty_neutral fiftyFiftyNormalSnapshot
    rfl rfl rfl rfl (by decide) rfl

/-! ## C6: the bull-stable strategy at price 100 -/

/-- C6: for every coin priced at 100 adapted under `"bull_stable"`, the
synthesized plan has entry 99.5, stop 92, targets `[115, 130, 150]`,
and the configured bull-market maximum position size. -/
theorem adaptStrategyToMarket_bullStable_price100 (coin : Coin)
    (ctx : MarketMetricsCtx) (hp : coin.price = 100) :
    (adaptStrategyToMarket coin "bull_stable" ctx).strategy.entryPrice = 199/2 ∧
    (adaptStrategyToMarket coin "bull_stable" ctx).strategy.stopLoss = 92 ∧
    (adaptStrategyToMarket coin "bull_stable" ctx).strategy.targets = [115, 130, 150] ∧
    (adaptStrategyToMarket coin "bull_stable" ctx).strategy.positionSize =
      CONFIG.RISK_MANAGEMENT.BULL_MARKET.MAX_POSITION_SIZE := by
  have hs : (adaptStrategyToMarket coin "bull_stable" ctx).strategy =
      getBullMarketStrategy coin ctx := by
    unfold adaptStrategyToMarket adaptSwitch
    rw [if_pos rfl]
  rw [hs]
  unfold getBullMarketStrategy
  refine ⟨?_, ?_, ?_, rfl⟩ <;> simp [hp] <;> norm_num

/-- A concrete coin priced at 100 for the C6 witness. -/
def coinAt100 : Coin :=
  { symbol := "BTC"
    price := 100
    volume := 5000000
    analysis :=
      { rsi := { value := 55, signal := "neutral", trend := "bullish" }
        macd := { signal := "bullish" }
        liquidityFlow := { trend := "increasing", percentage := 60 }
        buyingPower := { strength := "high" }
        movingAverages := { signal := "buy" }
        moneyFlowIndex := { flow := "positive", signal := "neutral" }
        accumulationDistribution := { trend := "accumulation" }
        supportResistance := { support1 := 90, support2 := 85, resistance1 := 110,
                               resistance2 := 120, nearSupport := false,
                               nearResistance := false }
        priceChange24h := 5 } }

/-- An empty ambient-metrics context (both optional fields absent). -/
def emptyCtx : MarketMetricsCtx := { bullishRatio := none, volatilityRegime := none }

/-- Witness for C6 at a concrete coin priced 100. -/
theorem adaptStrategyToMarket_bullStable_price100_witness :
    (adaptStrategyToMarket coinAt100 "bull_stable" emptyCtx).strategy.entryPrice = 199/2 ∧
    (adaptStrategyToMarket coinAt100 "bull_stable" emptyCtx).strategy.stopLoss = 92 ∧
    (adaptStrategyToMarket coinAt100 "bull_stable" emptyCtx).strategy.targets =
      [115, 130, 150] ∧
    (adaptStrategyToMarket coinAt100 "bull_stable" emptyCtx).strategy.positionSize =
      CONFIG.RISK_MANAGEMENT.BULL_MARKET.MAX_POSITION_SIZE :=
  adaptStrategyToMarket_bullStable_price100 coinAt100 emptyCtx rfl

/-! ## C2: the strategy price invariant -/

/-- A positively priced coin whose first resistance sits only 5% above
its first support: the sideways plan's entry (support × 1.02) lands
above its first target (resistance × 0.95). -/
def rangeBoundCoin : Coin :=
  { symbol := "RNG"
    price := 100
    volume := 2000000
    analysis :=
      { rsi := { value := 35, signal := "neutral", trend := "bearish" }
        macd := { signal := "bearish" }
        liquidityFlow := { trend := "stable", percentage := 20 }
        buyingPower := { strength := "medium" }
        movingAverages := { signal := "hold" }
        moneyFlowIndex := { flow := "negative", signal := "neutral" }
        accumulationDistribution := { trend := "distribution" }
        supportResistance := { support1 := 100, support2 := 95, resistance1 := 105,
                               resistance2 := 110, nearSupport := true,
                               nearResistance := false }
        priceChange24h := -1 } }

/-- C2 counterexample: for the strictly positively priced coin
`rangeBoundCoin` the sideways branch produces a plan whose entry
(102) exceeds its first target (99.75), so the claimed invariant fails
on the code. -/
theorem getSidewaysStrategy_breaks_plan_invariant :
    0 < rangeBoundCoin.price ∧
      ¬ strategyInvariant (getSidewaysStrategy rangeBoundCoin emptyCtx) := by
  constructor
  · norm_num [rangeBoundCoin]
  · intro hinv
    obtain ⟨-, -, -, -, hchain⟩ := hinv
    simp only [getSidewaysStrategy, rangeBoundCoin, List.chain_cons] at hchain
    obtain ⟨hlt, -⟩ := hchain
    norm_num at hlt

/-- C2 (amended): for every positively priced coin the bull, volatile
bull and bear plans satisfy the price invariant (positive prices,
`stopLoss < entryPrice`, strictly ascending targets above the entry);
the sideways plan satisfies it provided its anchors do: `support1`
positive and `resistance1` far enough above it that
`102 · support1 < 95 · resistance1`. -/
theorem strategy_plans_satisfy_invariant (coin : Coin) (ctx : MarketMetricsCtx)
    (hp : 0 < coin.price) :
    strategyInvariant (getBullMarketStrategy coin ctx) ∧
    strategyInvariant (getVolatileBullStrategy coin ctx) ∧
    strategyInvariant (getBearMarketStrategy coin ctx) ∧
    (0 < coin.analysis.supportResistance.support1 →
      102 * coin.analysis.supportResistance.support1 <
        95 * coin.analysis.supportResistance.resistance1 →
      strategyInvariant (getSidewaysStrategy coin ctx)) := by
  refine ⟨?_, ?_, ?_, ?_⟩
  · unfold strategyInvariant getBullMarketStrategy
    refine ⟨mul_pos hp (by norm_num), mul_pos hp (by norm_num), ?_, by nlinarith, ?_⟩
    · intro t ht
      simp only [List.mem_cons, List.not_mem_nil, or_false] at ht
      rcases ht with rfl | rfl | rfl <;> exact mul_pos hp (by norm_num)
    · refine List.Chain.cons ?_ (List.Chain.cons ?_ (List.Chain.cons ?_ List.Chain.nil)) <;>
        nlinarith
  · unfold strategyInvariant getVolatileBullStrategy
    refine ⟨mul_pos hp (by norm_num), mul_pos hp (by norm_num), ?_, by nlinarith, ?_⟩
    · intro t ht
      simp only [List.mem_cons, List.not_mem_nil, or_false] at ht
      rcases ht with rfl | rfl | rfl <;> exact mul_pos hp (by norm_num)
    · refine List.Chain.cons ?_ (List.Chain.cons ?_ (List.Chain.cons ?_ List.Chain.nil)) <;>
        nlinarith
  · unfold strategyInvariant getBearMarketStrategy
    refine ⟨mul_pos hp (by norm_num), mul_pos hp (by norm_num), ?_, by nlinarith, ?_⟩
    · intro t ht
      simp only [List.mem_cons, List.not_mem_nil, or_false] at ht
      rcases ht with rfl | rfl | rfl <;> exact mul_pos hp (by norm_num)
    · refine List.Chain.cons ?_ (List.Chain.cons ?_ (List.Chain.cons ?_ List.Chain.nil)) <;>
        nlinarith
  · intro hsup hgap
    have hres : 0 < coin.analysis.supportResistance.resistance1 := by nlinarith
    unfold strategyInvariant getSidewaysStrategy
    refine ⟨mul_pos hsup (by norm_num), mul_pos hsup (by norm_num), ?_, by nlinarith, ?_⟩
    · intro t ht
      simp only [List.mem_cons, List.not_mem_nil, or_false] at ht
      rcases ht with rfl | rfl <;> exact mul_pos hres (by norm_num)
    · refine List.Chain.cons ?_ (List.Chain.cons ?_ List.Chain.nil) <;> nlinarith

/-- A positively priced coin with a wide support/resistance band, for
the amended C2 witness. -/
def wideRangeCoin : Coin :=
  { rangeBoundCoin with
    analysis :=
      { rangeBoundCoin.analysis with
        supportResistance := { support1 := 100, support2 := 95, resistance1 := 120,
                               resistance2 := 130, nearSupport := true,
                               nearResistance := false } } }

/-- Witness for the amended C2: all four source-defined plans satisfy
the invariant on a concrete coin with a wide range. -/
theorem strategy_plans_satisfy_invariant_witness :
    strategyInvariant (getBullMarketStrategy wideRangeCoin emptyCtx) ∧
    strategyInvariant (getVolatileBullStrategy wideRangeCoin emptyCtx) ∧
    strategyInvariant (getBearMarketStrategy wideRangeCoin emptyCtx) ∧
    strategyInvariant (getSidewaysStrategy wideRangeCoin emptyCtx) := by
  have h := strategy_plans_satisfy_invariant wideRangeCoin emptyCtx
    (by norm_num [wideRangeCoin, rangeBoundCoin])
  exact ⟨h.1, h.2.1, h.2.2.1,
    h.2.2.2 (by norm_num [wideRangeCoin, rangeBoundCoin])
      (by norm_num [wideRangeCoin, rangeBoundCoin])⟩

/-! ## C3: the bear scorer and extreme 24h gains -/

/-- An asset analysis with an extreme +15% 24h gain whose only firing
bear rule is the oversold RSI bonus (additive sum 25). -/
def spikeGainAnalysis : AssetAnalysis :=
  { rsi := { value := 45, signal := "oversold", trend := "bearish" }
    macd := { signal := "bearish" }
    liquidityFlow := { trend := "stable", percentage := 20 }
    buyingPower := { strength := "medium" }
    movingAverages := { signal := "hold" }
    moneyFlowIndex := { flow := "negative", signal := "neutral" }
    accumulationDistribution := { trend := "distribution" }
    supportResistance := { support1 := 90, support2 := 85, resistance1 := 110,
                           resistance2 := 120, nearSupport := false,
                           nearResistance := false }
    priceChange24h := 15 }

/-- C3 counterexample: on an asset with a +15% 24h change the bear
scorer returns the plain additive sum (25), not 0.7 times it — no
counter-trend-spike multiplier exists in the code. -/
theorem calculateBearMarketScore_no_spike_penalty_cex :
    spikeGainAnalysis.priceChange24h = 15 ∧
    calculateBearMarketScore spikeGainAnalysis = 25 ∧
    calculateBearMarketScore spikeGainAnalysis ≠ (7/10) * 25 := by
  refine ⟨rfl, ?_, ?_⟩ <;>
    · simp [calculateBearMarketScore, spikeGainAnalysis, hasSupportBounce,
        hasVolumeSpike, hasBullishDivergence, hasDefensiveSignals,
        CONFIG.SCORING.BEAR_MARKET.RSI_OVERSOLD,
        CONFIG.SCORING.BEAR_MARKET.SUPPORT_BOUNCE,
        CONFIG.SCORING.BEAR_MARKET.VOLUME_SPIKE,
        CONFIG.SCORING.BEAR_MARKET.DIVERGENCE,
        CONFIG.SCORING.BEAR_MARKET.DEFENSIVE_SIGNALS]
      norm_num

/-- C3 (amended): the bear-market scorer never reads the 24h change, so
no counter-trend-spike penalty is applied: the score of any analysis is
unchanged under any replacement of its `priceChange24h` field (in
particular an extreme +15% gain earns no bull-style momentum bonus and
no ×0.7 multiplier — the result is the bare additive sum capped at
100). -/
theorem calculateBearMarketScore_ignores_change24h (analysis : AssetAnalysis) (q : ℚ) :
    calculateBearMarketScore { analysis with priceChange24h := q } =
      calculateBearMarketScore analysis := rfl

/-! ## C4: adapted scores stay in [0,100] -/

/-- C4: for every coin, regime label and ambient context, the adapted
opportunity score produced by `adaptStrategyToMarket` lies in
`[0,100]`. -/
theorem adaptedScore_in_unit_band (coin : Coin) (marketRegime : String)
    (ctx : MarketMetricsCtx) :
    0 ≤ (adaptStrategyToMarket coin marketRegime ctx).adaptedScore ∧
      (adaptStrategyToMarket coin marketRegime ctx).adaptedScore ≤ 100 := by
  have h : (adaptStrategyToMarket coin marketRegime ctx).adaptedScore =
      (adaptSwitch coin marketRegime ctx).1 := rfl
  rw [h]
  unfold adaptSwitch
  split_ifs <;>
    first
      | exact calculateBullMarketScore_mem coin.analysis
      | exact calculateBearMarketScore_mem coin.analysis
      | exact clampScore_mem _

/-! ## C8: `adaptStrategyToMarket` is frame-preserving -/

/-- C8: the record returned by `adaptStrategyToMarket` agrees with the
input coin on every input field (`symbol`, `price`, `volume`,
`analysis`) and only adds `adaptedScore`, `riskLevel`, `strategy` and
`marketRegime`; the embedding is pure, so the input coin itself is
untouched. -/
theorem adaptStrategyToMarket_frame (coin : Coin) (marketRegime : String)
    (ctx : MarketMetricsCtx) :
    (adaptStrategyToMarket coin marketRegime ctx).symbol = coin.symbol ∧
    (adaptStrategyToMarket coin marketRegime ctx).price = coin.price ∧
    (adaptStrategyToMarket coin marketRegime ctx).volume = coin.volume ∧
    (adaptStrategyToMarket coin marketRegime ctx).analysis = coin.analysis ∧
    (adaptStrategyToMarket coin marketRegime ctx).marketRegime = marketRegime :=
  ⟨rfl, rfl, rfl, rfl, rfl⟩

/-! ## C5: RSI neutral fallback on short series -/

/-- C5: every price series with fewer than `period+1 = 15` points makes
RSI return exactly the neutral fallback `(50, "neutral")`. -/
theorem calculateRSI_short_series_neutral (prices : List ℚ)
    (h : prices.length < 15) :
    (calculateRSI prices 14).value = 50 ∧
      (calculateRSI prices 14).signal = "neutral" := by
  unfold calculateRSI
  rw [if_pos (show prices.length < 14 + 1 by omega)]
  exact ⟨rfl, rfl⟩

/-- Witness for C5 on a concrete three-point series. -/
theorem calculateRSI_short_series_neutral_witness :
    ([1, 2, 3] : List ℚ).length < 15 ∧
    (calculateRSI [1, 2, 3] 14).value = 50 ∧
    (calculateRSI [1, 2, 3] 14).signal = "neutral" :=
  ⟨by norm_num, calculateRSI_short_series_neutral [1, 2, 3] (by norm_num)⟩

/-! ## C9: regime-change detection over the persisted cell -/

/-- C9: with nothing persisted the detector returns `false` and
persists the current regime; with a (non-empty) regime persisted it
returns `true` exactly when the persisted value differs from the
current regime, overwriting the cell exactly in that differing case. -/
theorem hasMarketRegimeChanged_spec (p current : String) (hp : p ≠ "") :
    hasMarketRegimeChanged none current = (false, some current) ∧
    ((hasMarketRegimeChanged (some p) current).1 = true ↔ p ≠ current) ∧
    (p ≠ current → (hasMarketRegimeChanged (some p) current).2 = some current) ∧
    (p = current → (hasMarketRegimeChanged (some p) current).2 = some p) := by
  unfold hasMarketRegimeChanged
  by_cases hc : p = current
  · subst hc
    simp [hp]
  · simp [hp, hc]

/-- Witness for C9 at a concrete persisted/current regime pair. -/
theorem hasMarketRegimeChanged_spec_witness :
    hasMarketRegimeChanged none "neutral" = (false, some "neutral") ∧
    ((hasMarketRegimeChanged (some "bull_stable") "neutral").1 = true ↔
      ("bull_stable" : String) ≠ "neutral") ∧
    (("bull_stable" : String) ≠ "neutral" →
      (hasMarketRegimeChanged (some "bull_stable") "neutral").2 = some "neutral") ∧
    (("bull_stable" : String) = "neutral" →
      (hasMarketRegimeChanged (some "bull_stable") "neutral").2 = some "bull_stable") :=
  hasMarketRegimeChanged_spec "bull_stable" "neutral" (by decide)

/-! ## C10: the RSI "bullish"-signal confidence branch is unreachable -/

/-- C10: whenever `rsi.signal` lies in the documented signal domain
{"overbought", "oversold", "neutral"}, `calculateConfidence` computes
the same value as the variant with the `rsi.signal === 'bullish'` +10
branch removed: the RSI directional bonus is never awarded. -/
theorem calculateConfidence_rsi_bullish_branch_unreachable
    (analysis : AssetAnalysis) (marketType : String) (ctx : MarketMetricsCtx)
    (h : analysis.rsi.signal = "overbought" ∨ analysis.rsi.signal = "oversold" ∨
      analysis.rsi.signal = "neutral") :
    calculateConfidence analysis marketType ctx =
      calculateConfidenceNoRsiDirBonus analysis marketType ctx := by
  have hb : analysis.rsi.signal ≠ "bullish" := by
    rcases h with h | h | h <;> rw [h] <;> decide
  simp [calculateConfidence, calculateConfidenceNoRsiDirBonus, hb]

/-- An analysis with a neutral RSI signal for the C10 witness. -/
def neutralSignalAnalysis : AssetAnalysis :=
  { spikeGainAnalysis with rsi := { value := 55, signal := "neutral", trend := "bullish" } }

/-- Witness for C10 at a concrete analysis with a neutral RSI signal. -/
theorem calculateConfidence_rsi_bullish_branch_unreachable_witness :
    (neutralSignalAnalysis.rsi.signal = "overbought" ∨
      neutralSignalAnalysis.rsi.signal = "oversold" ∨
      neutralSignalAnalysis.rsi.signal = "neutral") ∧
    calculateConfidence neutralSignalAnalysis "bull" emptyCtx =
      calculateConfidenceNoRsiDirBonus neutralSignalAnalysis "bull" emptyCtx :=
  ⟨Or.inr (Or.inr rfl),
    calculateConfidence_rsi_bullish_branch_unreachable neutralSignalAnalysis "bull"
      emptyCtx (Or.inr (Or.inr rfl))⟩

end PumpDetector
